import Mathlib

/-!
Verification of the LivePortrait serverless job handler (src/handler.py).

The handler is sequential glue code: validate the request, create a scratch
directory, download the source image, run the external LivePortrait pipeline,
upload the outputs, shape a JSON response, and (on some paths) delete the
scratch directory.

The embedding is a shallow one.  All interactions with the outside world
(HTTP download, object-store upload, the external pipeline, the filesystem)
are modelled by an `Env` oracle that fixes the outcome of each external call,
and every function additionally returns the list of externally visible
`Event`s it performs, in order.  Python `(result, error)` pairs become pairs
of `Option`s; Python exceptions raised by an external call become
`Except String Unit` outcomes in the oracle; the bare `except` blocks of the
source are modelled by matching on those outcomes exactly where the source
wraps the call in `try`.  Python string truthiness (`if not s:`) is modelled
by `truthyOpt`.  Python `str.lower()` is modelled by `pythonLower`, a
structurally recursive ASCII lowercasing (the template keys are ASCII).
-/

namespace LivePortraitHandler

/-- Externally visible actions of a run, in program order:
scratch-directory creation (`tempfile.mkdtemp`, handler.py line 257),
an HTTP download attempt (`requests.get`, line 128), evaluation of the
expression-to-template lookup (line 194), the single external pipeline
invocation (line 213), an object-store upload attempt (line 154) and a
scratch-directory removal attempt (`shutil.rmtree`, lines 294 and 310). -/
inductive Event where
  | mkdtemp (dir : String)
  | download (url : String) (dest : String)
  | exprLookup (label : String)
  | pipelineInvoke
  | upload (path : String) (obj : String)
  | rmtree (dir : String)
deriving DecidableEq

/-- Responses of `handler`: either the `{"error": ...}` payload (lines 250,
264, 275, 318) or the success payload of lines 300-305 with its four keys
`video_url`, `motion_template_url`, `expression`, `status`. -/
inductive Response where
  | error (msg : String)
  | result (video_url : Option String) (motion_template_url : Option String)
      (expression : String) (status : String)
deriving DecidableEq

/-- The `input` object of a job request (handler.py lines 237-241).  Each
field is `none` when the key is absent.  `driving_video_url` is part of the
request vocabulary of the spec; handler.py never reads it. -/
structure JobInput where
  source_image_url : Option String
  expression : Option String
  driving_video_url : Option String
deriving DecidableEq

/-- A job record; `input` is `none` when the `input` key is absent, in which
case `job.get('input', {})` (line 243) substitutes the empty dict. -/
structure Job where
  input : Option JobInput
deriving DecidableEq

/-- Oracle fixing the outcome of every external interaction of one run:
whether the module-level S3 client was built (lines 29-47), the outcome of
`requests.get` streaming to a destination (an exception message on failure),
whether the LivePortrait pipeline is loaded or loadable (lines 99-122 and
187-189), `os.path.exists` on driving templates and on produced artifacts,
the outcome of `pipeline.execute` (line 213), the `*.mp4` glob of an output
directory (line 216), the outcome of `s3_client.upload_file` (line 154),
whether `shutil.rmtree` succeeds (its failure is swallowed, lines 293-296 and
309-312), the name `tempfile.mkdtemp` returns at line 257, the directory
`tempfile.mkdtemp` would return at line 201, and an optional unexpected
exception raised inside the `try` block of `handler` (caught at line 307). -/
structure Env where
  s3Configured : Bool
  downloadResult : String → String → Except String Unit
  pipelineAvailable : Bool
  templateExists : String → Bool
  pipelineRun : Except String Unit
  globOutput : String → List String
  pathExists : String → Bool
  uploadResult : String → String → Except String Unit
  rmtreeOk : Bool
  tempDirName : String
  genOutputDir : String
  unexpectedExc : Option String

/-- Module constant: `RUNPOD_S3_BUCKET` default (handler.py line 31). -/
def S3_BUCKET : String := "flowsmartly-avatars"

/-- Module constant: `RUNPOD_S3_ENDPOINT` default (handler.py line 32). -/
def S3_ENDPOINT : String := "https://storage.runpod.io"

/-- The `EXPRESSION_TEMPLATES` dict of handler.py lines 53-63, as an
association list in source order. -/
def EXPRESSION_TEMPLATES : List (String × String) :=
  [("neutral", "/workspace/LivePortrait/assets/examples/driving/d0.mp4"),
   ("smile", "/workspace/LivePortrait/assets/examples/driving/laugh.pkl"),
   ("sad", "/workspace/LivePortrait/assets/examples/driving/aggrieved.pkl"),
   ("surprised", "/workspace/LivePortrait/assets/examples/driving/d5.pkl"),
   ("approve", "/workspace/LivePortrait/assets/examples/driving/d1.pkl"),
   ("disapprove", "/workspace/LivePortrait/assets/examples/driving/shake_face.pkl"),
   ("confused", "/workspace/LivePortrait/assets/examples/driving/shy.pkl"),
   ("wink", "/workspace/LivePortrait/assets/examples/driving/wink.pkl"),
   ("talking", "/workspace/LivePortrait/assets/examples/driving/talking.pkl")]

/-- The default of the lookup at line 194: `EXPRESSION_TEMPLATES['neutral']`. -/
def neutral_template : String :=
  (List.lookup "neutral" EXPRESSION_TEMPLATES).getD ""

/-- ASCII lowercasing of one character, as `str.lower()` acts on the ASCII
range (the only characters occurring in the template keys). -/
def lowerChar (c : Char) : Char :=
  if 65 ≤ c.toNat ∧ c.toNat ≤ 90 then Char.ofNat (c.toNat + 32) else c

/-- Python `str.lower()` restricted to ASCII, structurally recursive so that
concrete instances evaluate. -/
def pythonLower (s : String) : String :=
  String.mk (s.data.map lowerChar)

/-- The Expression Resolver: handler.py line 194,
`EXPRESSION_TEMPLATES.get(expression.lower(), EXPRESSION_TEMPLATES['neutral'])`. -/
def resolve_expression (expression : String) : String :=
  (List.lookup (pythonLower expression) EXPRESSION_TEMPLATES).getD neutral_template

/-- Python truthiness of an optional string: `None` and `""` are falsy. -/
def truthyOpt : Option String → Bool
  | none => false
  | some s => !(s == "")

/-- Characters after the last `'/'` of a list, accumulator-style. -/
def lastComponentAux : List Char → List Char → List Char
  | [], acc => acc.reverse
  | c :: cs, acc => if c = '/' then lastComponentAux cs [] else lastComponentAux cs (c :: acc)

/-- `Path(local_path).name`: the last path component (handler.py line 150),
for paths without a trailing slash. -/
def baseName (p : String) : String :=
  String.mk (lastComponentAux p.data [])

/-- `download_file` (handler.py lines 124-141): streams the URL to
`local_path`; on success returns `(local_path, None)`, and any exception is
caught and turned into `(None, "Download failed: ...")`.  The download
attempt itself is recorded as an event in both cases. -/
def download_file (env : Env) (url local_path : String) :
    (Option String × Option String) × List Event :=
  match env.downloadResult url local_path with
  | Except.ok _ => ((some local_path, none), [Event.download url local_path])
  | Except.error e =>
      ((none, some ("Download failed: " ++ e)), [Event.download url local_path])

/-- `upload_to_s3` (handler.py lines 143-168): returns
`(None, "S3 not configured")` when no client was built (no network touched),
otherwise attempts the upload with the default object name
`liveportrait-output/<basename>` when none is given, returning the public
URL on success and `(None, "S3 upload failed: ...")` on an exception. -/
def upload_to_s3 (env : Env) (local_path : String) (object_name : Option String) :
    (Option String × Option String) × List Event :=
  if env.s3Configured = false then
    ((none, some "S3 not configured"), [])
  else
    let obj := object_name.getD ("liveportrait-output/" ++ baseName local_path)
    match env.uploadResult local_path obj with
    | Except.ok _ =>
        ((some (S3_ENDPOINT ++ "/" ++ S3_BUCKET ++ "/" ++ obj), none),
         [Event.upload local_path obj])
    | Except.error e =>
        ((none, some ("S3 upload failed: " ++ e)), [Event.upload local_path obj])

/-- `generate_animation` (handler.py lines 170-231), returning
`(video_path, motion_template_path, error)` and the events performed.  If the
pipeline is unavailable and cannot be loaded it fails before the expression
lookup; otherwise the lookup of line 194 is evaluated (recorded as an
`exprLookup` event), the resolved template is checked on disk, the pipeline
is invoked once (an exception becoming `"Animation generation failed: ..."`)
and the output directory is globbed for `*.mp4`.  Line 225 always returns
`None` for the motion template (`return output_video, None, None`). -/
def generate_animation (env : Env) (source_image_path expression : String)
    (output_dir : Option String) :
    (Option String × Option String × Option String) × List Event :=
  if env.pipelineAvailable = false then
    ((none, none, some "LivePortrait pipeline not available"), [])
  else
    let driving_template := resolve_expression expression
    if env.templateExists driving_template = false then
      ((none, none, some ("Expression template not found: " ++ driving_template)),
       [Event.exprLookup expression])
    else
      let out := output_dir.getD env.genOutputDir
      match env.pipelineRun with
      | Except.error e =>
          ((none, none, some ("Animation generation failed: " ++ e)),
           [Event.exprLookup expression, Event.pipelineInvoke])
      | Except.ok _ =>
          match env.globOutput out with
          | [] => ((none, none, some "No output video generated"),
                   [Event.exprLookup expression, Event.pipelineInvoke])
          | f :: _ => ((some f, none, none),
                   [Event.exprLookup expression, Event.pipelineInvoke])

/-- Outcome of one `handler` call: the returned payload, the events performed
in order, whether the scratch directory of line 257 was created, and whether
it still exists on disk when `handler` returns (created and not successfully
removed). -/
structure HandlerOutcome where
  response : Response
  events : List Event
  tempDirCreated : Bool
  tempDirExists : Bool
deriving DecidableEq

/-- `handler` (handler.py lines 233-318).  Validation (line 249) precedes any
resource allocation.  `tempfile.mkdtemp` (line 257) then creates the scratch
directory.  Inside the `try`: an unexpected exception (modelled by
`env.unexpectedExc`) jumps to the handler of line 307, which attempts
`rmtree` and returns `{"error": "Handler error: ..."}`.  Otherwise the source
image is downloaded to `temp_dir/source.jpg`; a download error returns at
line 264 (no cleanup on this path), a generation error returns at line 275
(no cleanup on this path), and on success each existing artifact is uploaded
— a failed video upload falls back to the local path (line 285) while a
failed template upload leaves `template_url = None` — then `rmtree` is
attempted (failure swallowed) and the success payload is returned. -/
def handler (env : Env) (job : Job) : HandlerOutcome :=
  let job_input := job.input.getD ⟨none, none, none⟩
  let source_image_url := job_input.source_image_url
  let expression := job_input.expression.getD "neutral"
  if truthyOpt source_image_url then
    let url := source_image_url.getD ""
    let temp_dir := env.tempDirName
    match env.unexpectedExc with
    | some e =>
        ⟨Response.error ("Handler error: " ++ e),
         [Event.mkdtemp temp_dir, Event.rmtree temp_dir],
         true, !env.rmtreeOk⟩
    | none =>
        let source_image_path := temp_dir ++ "/source.jpg"
        let dl := download_file env url source_image_path
        match dl.1.2 with
        | some e =>
            ⟨Response.error ("Failed to download source image: " ++ e),
             Event.mkdtemp temp_dir :: dl.2, true, true⟩
        | none =>
            let source_image_path2 := dl.1.1.getD source_image_path
            let output_dir := temp_dir ++ "/output"
            let ga := generate_animation env source_image_path2 expression (some output_dir)
            match ga.1.2.2 with
            | some e =>
                ⟨Response.error e, Event.mkdtemp temp_dir :: (dl.2 ++ ga.2), true, true⟩
            | none =>
                let video_path := ga.1.1
                let template_path := ga.1.2.1
                let vstep : Option String × List Event :=
                  match video_path with
                  | none => (none, [])
                  | some vp =>
                      if (!(vp == "")) && env.pathExists vp then
                        let up := upload_to_s3 env vp none
                        match up.1.2 with
                        | some _ => (some vp, up.2)
                        | none => (up.1.1, up.2)
                      else (none, [])
                let tstep : Option String × List Event :=
                  match template_path with
                  | none => (none, [])
                  | some tp =>
                      if (!(tp == "")) && env.pathExists tp then
                        let up := upload_to_s3 env tp none
                        match up.1.2 with
                        | some _ => (none, up.2)
                        | none => (up.1.1, up.2)
                      else (none, [])
                ⟨Response.result vstep.1 tstep.1 expression "completed",
                 Event.mkdtemp temp_dir ::
                   (dl.2 ++ ga.2 ++ vstep.2 ++ tstep.2 ++ [Event.rmtree temp_dir]),
                 true, !env.rmtreeOk⟩
  else
    ⟨Response.error "source_image_url is required", [], false, false⟩

/-! ### Concrete environments and jobs used by witnesses and counterexamples -/

/-- Environment of a fully successful run without storage credentials:
download succeeds, pipeline loaded and succeeds, every template and artifact
exists, the glob finds one video, `rmtree` succeeds, no unexpected
exception; the S3 client was never built. -/
def envOK : Env :=
  ⟨false, fun _ _ => Except.ok (), true, fun _ => true, Except.ok (),
   fun _ => ["/tmp/job1/output/out.mp4"], fun _ => true, fun _ _ => Except.ok (),
   true, "/tmp/job1", "/tmp/gen", none⟩

/-- Like `envOK` but with the S3 client configured and uploads succeeding. -/
def envS3 : Env :=
  ⟨true, fun _ _ => Except.ok (), true, fun _ => true, Except.ok (),
   fun _ => ["/tmp/job1/output/out.mp4"], fun _ => true, fun _ _ => Except.ok (),
   true, "/tmp/job1", "/tmp/gen", none⟩

/-- Like `envOK` but the HTTP download of the source image fails with an
HTTP error. -/
def envDLFail : Env :=
  ⟨false, fun _ _ => Except.error "404 Client Error", true, fun _ => true,
   Except.ok (), fun _ => ["/tmp/job1/output/out.mp4"], fun _ => true,
   fun _ _ => Except.ok (), true, "/tmp/job1", "/tmp/gen", none⟩

/-- A minimal valid job: only `source_image_url` supplied. -/
def jobBasic : Job :=
  ⟨some ⟨some "http://example.com/p.jpg", none, none⟩⟩

/-- A job that supplies a driving video reference alongside the source image
and an expression. -/
def jobWithDriving : Job :=
  ⟨some ⟨some "http://example.com/p.jpg", some "smile",
    some "http://example.com/drive.mp4"⟩⟩

/-! ### Helper lemmas shared by the claim theorems -/

/-- Line 225 of handler.py returns `None` for the motion template on every
path of `generate_animation`. -/
theorem generate_animation_template_none (env : Env) (src expr : String)
    (od : Option String) :
    (generate_animation env src expr od).1.2.1 = none := by
  unfold generate_animation
  dsimp only
  repeat' split
  all_goals rfl

/-- Every response of `handler` is either an `{"error": ...}` payload or the
success payload, whose status is `"completed"`, whose motion-template field
is `None`, and whose expression field echoes the request's (defaulted)
expression label. -/
theorem handler_cases (env : Env) (job : Job) :
    (∃ m, (handler env job).response = Response.error m) ∨
    (∃ v, (handler env job).response =
      Response.result v none
        ((job.input.getD ⟨none, none, none⟩).expression.getD "neutral")
        "completed") := by
  unfold handler
  dsimp only
  repeat' split
  all_goals first
    | exact Or.inl ⟨_, rfl⟩
    | exact Or.inr ⟨_, rfl⟩
    | simp_all [generate_animation_template_none]

/-- `download_file` always returns a pair with exactly one component `None`:
the saved path with no error, or no path with an error message. -/
theorem download_file_parts (env : Env) (url p : String) :
    ((download_file env url p).1.1.isSome = true ∧
      (download_file env url p).1.2 = none) ∨
    ((download_file env url p).1.1 = none ∧
      (download_file env url p).1.2.isSome = true) := by
  unfold download_file
  cases env.downloadResult url p <;> simp

/-- `upload_to_s3` always returns a pair with exactly one component `None`:
the public URL with no error, or no URL with an error message. -/
theorem upload_to_s3_parts (env : Env) (lp : String) (ob : Option String) :
    ((upload_to_s3 env lp ob).1.1.isSome = true ∧
      (upload_to_s3 env lp ob).1.2 = none) ∨
    ((upload_to_s3 env lp ob).1.1 = none ∧
      (upload_to_s3 env lp ob).1.2.isSome = true) := by
  unfold upload_to_s3
  dsimp only
  repeat' split
  all_goals simp

/-- Evaluation of the success path of `handler`: validation passes, no
unexpected exception, the download succeeds, the pipeline is available, the
resolved template exists, the pipeline run succeeds, the output glob finds a
video `vp` which exists on disk.  The response is then the success payload:
its video field is the local path `vp` when the upload reported an error and
the upload's URL otherwise, its motion-template field is `None`, its
expression field echoes the request label, and its status is `"completed"`. -/
theorem handler_success_response (env : Env) (u expr vp : String)
    (rest : List String) (dv : Option String)
    (h1 : u ≠ "")
    (h2 : env.unexpectedExc = none)
    (h3 : env.downloadResult u (env.tempDirName ++ "/source.jpg") = Except.ok ())
    (h4 : env.pipelineAvailable = true)
    (h5 : env.templateExists (resolve_expression expr) = true)
    (h6 : env.pipelineRun = Except.ok ())
    (h7 : env.globOutput (env.tempDirName ++ "/output") = vp :: rest)
    (h8 : vp ≠ "")
    (h9 : env.pathExists vp = true) :
    (handler env ⟨some ⟨some u, some expr, dv⟩⟩).response =
      Response.result
        (match (upload_to_s3 env vp none).1.2 with
         | some _ => some vp
         | none => (upload_to_s3 env vp none).1.1)
        none expr "completed" := by
  unfold handler download_file generate_animation
  simp [truthyOpt, h1, h2, h3, h4, h5, h6, h7, h8, h9]
  cases hu : (upload_to_s3 env vp none).1.2 <;> simp [hu]

/-! ### Claim theorems -/

/-- Claim C1 (code evaluated at the failing input): for the validated job
`jobBasic` whose source-image download fails with an HTTP error, `handler`
creates the scratch directory, returns the download-error payload from
line 264 without ever attempting `shutil.rmtree`, and the scratch directory
still exists on disk when `handler` returns — contradicting the claim that
the directory is gone on every failure path.  Cleanup runs only on the
success path (line 294) and in the `except` handler (line 310); the early
`return`s at lines 264 and 275 bypass it. -/
theorem c1_tempdir_leak_on_download_failure :
    (handler envDLFail jobBasic).tempDirCreated = true ∧
    (handler envDLFail jobBasic).tempDirExists = true ∧
    Event.rmtree "/tmp/job1" ∉ (handler envDLFail jobBasic).events ∧
    (handler envDLFail jobBasic).response =
      Response.error
        "Failed to download source image: Download failed: 404 Client Error" := by
  decide

/-- Claim C2 (counterexample): a job that supplies `driving_video_url` on
which the expression-to-template lookup of line 194 is nonetheless
evaluated, refuting "the Expression Resolver is never consulted when
`driving_video_url` is supplied". -/
theorem c2_resolver_consulted_despite_driving_video :
    (jobWithDriving.input.getD ⟨none, none, none⟩).driving_video_url =
      some "http://example.com/drive.mp4" ∧
    Event.exprLookup "smile" ∈ (handler envOK jobWithDriving).events := by
  decide

/-- Claim C2 (amended): `handler` never reads `driving_video_url` at all —
its entire outcome (response, events, filesystem effect) is identical
whether or not a driving video is supplied, and in particular the Expression
Resolver is consulted exactly as it would be without one. -/
theorem c2_driving_video_url_ignored (env : Env) (s e : Option String) (d : String) :
    handler env ⟨some ⟨s, e, some d⟩⟩ = handler env ⟨some ⟨s, e, none⟩⟩ := rfl

/-- Claim C3 (counterexample): a job that completes with status
`"completed"` (with the store configured and the video upload succeeding)
in whose result the motion-template artifact has neither a remote URL nor a
local path populated — `motion_template_url` is `None` and the payload
carries no template local path — refuting "exactly one of remote URL or
local path is populated for each artifact". -/
theorem c3_template_artifact_unpopulated :
    (handler envS3 jobBasic).response =
      Response.result
        (some "https://storage.runpod.io/flowsmartly-avatars/liveportrait-output/out.mp4")
        none "neutral" "completed" := by
  decide

/-- Claim C3 (amended): in a completed result the video artifact occupies a
single field, which holds the local path exactly when the upload reported an
error and the upload's remote URL exactly when the upload succeeded; the
motion-template field is always `None` (this handler variant never produces
a template, line 225), so no populated-field dichotomy holds for it. -/
theorem c3_video_field_indicates_upload (env : Env) (u expr vp : String)
    (rest : List String) (dv : Option String)
    (h1 : u ≠ "")
    (h2 : env.unexpectedExc = none)
    (h3 : env.downloadResult u (env.tempDirName ++ "/source.jpg") = Except.ok ())
    (h4 : env.pipelineAvailable = true)
    (h5 : env.templateExists (resolve_expression expr) = true)
    (h6 : env.pipelineRun = Except.ok ())
    (h7 : env.globOutput (env.tempDirName ++ "/output") = vp :: rest)
    (h8 : vp ≠ "")
    (h9 : env.pathExists vp = true) :
    (∀ e, (upload_to_s3 env vp none).1.2 = some e →
      (handler env ⟨some ⟨some u, some expr, dv⟩⟩).response =
        Response.result (some vp) none expr "completed") ∧
    (∀ r, (upload_to_s3 env vp none).1.1 = some r →
      (handler env ⟨some ⟨some u, some expr, dv⟩⟩).response =
        Response.result (some r) none expr "completed") := by
  have hmain := handler_success_response env u expr vp rest dv h1 h2 h3 h4 h5 h6 h7 h8 h9
  constructor
  · intro e he
    rw [hmain, he]
  · intro r hr
    rcases upload_to_s3_parts env vp none with ⟨_, hnone⟩ | ⟨hnone, _⟩
    · rw [hmain, hnone, hr]
    · rw [hnone] at hr
      cases hr

/-- Claim C3 witness: with the store configured and every step succeeding,
the completed result's video field is the remote URL and its
motion-template field is `None`. -/
theorem c3_video_field_indicates_upload_witness :
    (handler envS3 ⟨some ⟨some "http://example.com/p.jpg", some "smile", none⟩⟩).response =
      Response.result
        (some "https://storage.runpod.io/flowsmartly-avatars/liveportrait-output/out.mp4")
        none "smile" "completed" :=
  (c3_video_field_indicates_upload envS3 "http://example.com/p.jpg" "smile"
      "/tmp/job1/output/out.mp4" [] none
      (by decide) rfl rfl rfl rfl rfl rfl (by decide) rfl).2
    "https://storage.runpod.io/flowsmartly-avatars/liveportrait-output/out.mp4"
    (by decide)

/-- Claim C4: whenever the request's `source_image_url` is absent or empty
(Python-falsy, line 249) — including when the whole `input` object is
missing — `handler` returns the `{"error": "source_image_url is required"}`
payload having performed no events at all: no scratch directory, no
download, no upload. -/
theorem c4_missing_source_image_url (env : Env) (job : Job)
    (h : truthyOpt ((job.input.getD ⟨none, none, none⟩).source_image_url) = false) :
    (handler env job).response = Response.error "source_image_url is required" ∧
    (handler env job).events = [] ∧
    (handler env job).tempDirCreated = false := by
  unfold handler
  simp [h]

/-- Claim C4 witness: a job with no `input` object at all. -/
theorem c4_missing_source_image_url_witness :
    (handler envOK ⟨none⟩).response = Response.error "source_image_url is required" ∧
    (handler envOK ⟨none⟩).events = [] ∧
    (handler envOK ⟨none⟩).tempDirCreated = false :=
  c4_missing_source_image_url envOK ⟨none⟩ (by decide)

/-- Claim C5: whenever the source-image download fails (the HTTP request
raises, so `download_file` reports an error), `handler` returns an error
payload and the external pipeline is never invoked during the job
(regardless of whether the run instead dies of an unexpected exception
before the download). -/
theorem c5_download_failure_skips_pipeline (env : Env) (u msg : String)
    (eo dv : Option String)
    (h1 : u ≠ "")
    (h2 : env.downloadResult u (env.tempDirName ++ "/source.jpg") = Except.error msg) :
    (∃ m, (handler env ⟨some ⟨some u, eo, dv⟩⟩).response = Response.error m) ∧
    Event.pipelineInvoke ∉ (handler env ⟨some ⟨some u, eo, dv⟩⟩).events := by
  cases hx : env.unexpectedExc with
  | some e2 =>
      constructor
      · exact ⟨"Handler error: " ++ e2, by simp [handler, truthyOpt, h1, hx]⟩
      · simp [handler, truthyOpt, h1, hx]
  | none =>
      constructor
      · exact ⟨"Failed to download source image: " ++ ("Download failed: " ++ msg),
          by simp [handler, download_file, truthyOpt, h1, hx, h2]⟩
      · simp [handler, download_file, truthyOpt, h1, hx, h2]

/-- Claim C5 witness: concrete failing download, no pipeline invocation. -/
theorem c5_download_failure_skips_pipeline_witness :
    (∃ m, (handler envDLFail jobBasic).response = Response.error m) ∧
    Event.pipelineInvoke ∉ (handler envDLFail jobBasic).events :=
  c5_download_failure_skips_pipeline envDLFail "http://example.com/p.jpg"
    "404 Client Error" none none (by decide) rfl

/-- Claim C6: an expression label unrecognized by the (case-insensitive)
lookup resolves to the neutral template of `EXPRESSION_TEMPLATES['neutral']`,
and `generate_animation` proceeds to invoke the pipeline (given that the
pipeline is loadable and the neutral asset exists on disk) instead of
failing on the unknown label. -/
theorem c6_unknown_label_resolves_to_neutral (env : Env) (src out expr : String)
    (h1 : List.lookup (pythonLower expr) EXPRESSION_TEMPLATES = none)
    (h2 : env.pipelineAvailable = true)
    (h3 : env.templateExists neutral_template = true) :
    resolve_expression expr = neutral_template ∧
    Event.pipelineInvoke ∈ (generate_animation env src expr (some out)).2 := by
  have hres : resolve_expression expr = neutral_template := by
    unfold resolve_expression
    rw [h1]
    rfl
  refine ⟨hres, ?_⟩
  unfold generate_animation
  cases hpr : env.pipelineRun with
  | error e => simp [h2, hres, h3, hpr]
  | ok a =>
      cases hg : env.globOutput out <;> simp [h2, hres, h3, hpr, hg]

/-- Claim C6 witness: the label `"angry"` is not in the template table and
resolves to the neutral asset; the pipeline is still invoked. -/
theorem c6_unknown_label_resolves_to_neutral_witness :
    resolve_expression "angry" = neutral_template ∧
    Event.pipelineInvoke ∈ (generate_animation envOK "/tmp/s.jpg" "angry" (some "/tmp/o")).2 :=
  c6_unknown_label_resolves_to_neutral envOK "/tmp/s.jpg" "/tmp/o" "angry"
    (by decide) rfl rfl

/-- Claim C7: when the module-level S3 client was never built (storage
credentials unset) and the pipeline run succeeds end to end, the job still
completes: the response is the success payload with status `"completed"`
whose video field is the local path of the generated video, not a remote
URL. -/
theorem c7_no_credentials_local_path (env : Env) (u expr vp : String)
    (rest : List String) (dv : Option String)
    (h0 : env.s3Configured = false)
    (h1 : u ≠ "")
    (h2 : env.unexpectedExc = none)
    (h3 : env.downloadResult u (env.tempDirName ++ "/source.jpg") = Except.ok ())
    (h4 : env.pipelineAvailable = true)
    (h5 : env.templateExists (resolve_expression expr) = true)
    (h6 : env.pipelineRun = Except.ok ())
    (h7 : env.globOutput (env.tempDirName ++ "/output") = vp :: rest)
    (h8 : vp ≠ "")
    (h9 : env.pathExists vp = true) :
    (handler env ⟨some ⟨some u, some expr, dv⟩⟩).response =
      Response.result (some vp) none expr "completed" := by
  rw [handler_success_response env u expr vp rest dv h1 h2 h3 h4 h5 h6 h7 h8 h9]
  simp [upload_to_s3, h0]

/-- Claim C7 witness: concrete successful run with the S3 client absent;
the video field is the local output path. -/
theorem c7_no_credentials_local_path_witness :
    (handler envOK ⟨some ⟨some "http://example.com/p.jpg", some "smile", none⟩⟩).response =
      Response.result (some "/tmp/job1/output/out.mp4") none "smile" "completed" :=
  c7_no_credentials_local_path envOK "http://example.com/p.jpg" "smile"
    "/tmp/job1/output/out.mp4" [] none
    rfl (by decide) rfl rfl rfl rfl rfl rfl (by decide) rfl

/-- Claim C8: on every input and every outcome of the external world
(validation failure, download failure, pipeline failure, upload failure,
unexpected exception — the latter caught by the `except` of line 307),
`handler` returns a structured payload: either `{"error": ...}` or the
completed success payload.  The embedding makes `handler` total, mirroring
the fact that every exception path in the source is caught and converted. -/
theorem c8_all_errors_structured (env : Env) (job : Job) :
    (∃ m, (handler env job).response = Response.error m) ∨
    (∃ v t e, (handler env job).response = Response.result v t e "completed") := by
  rcases handler_cases env job with ⟨m, hm⟩ | ⟨v, hv⟩
  · exact Or.inl ⟨m, hm⟩
  · exact Or.inr ⟨v, _, _, hv⟩

/-- Claim C9: the expression lookup works on the lowercased label, so two
labels equal up to case resolve to the same driving template; yet a
successful result echoes the caller's original, non-lowercased label. -/
theorem c9_lookup_case_insensitive_echo_original (env : Env) (l1 l2 u : String)
    (v t : Option String) (e s : String)
    (h : pythonLower l1 = pythonLower l2)
    (hr : (handler env ⟨some ⟨some u, some l1, none⟩⟩).response =
      Response.result v t e s) :
    resolve_expression l1 = resolve_expression l2 ∧ e = l1 := by
  constructor
  · unfold resolve_expression
    rw [h]
  · rcases handler_cases env ⟨some ⟨some u, some l1, none⟩⟩ with ⟨m, hm⟩ | ⟨v2, hv⟩
    · rw [hm] at hr
      cases hr
    · rw [hv] at hr
      injection hr with hv2 ht he hs
      exact he.symm

/-- Claim C9 witness: `"SMILE"` and `"smile"` resolve to the same template,
and the completed result echoes `"SMILE"` verbatim. -/
theorem c9_lookup_case_insensitive_echo_original_witness :
    resolve_expression "SMILE" = resolve_expression "smile" ∧ "SMILE" = "SMILE" :=
  c9_lookup_case_insensitive_echo_original envOK "SMILE" "smile"
    "http://example.com/p.jpg" (some "/tmp/job1/output/out.mp4") none "SMILE"
    "completed" (by decide) (by decide)

/-- Claim C10: `download_file` and `upload_to_s3` each return a
`(result, error)` pair with exactly one component `None` on every input —
a present result with no error on success, and no result with a present
error message on every failure (including the unconfigured-store case). -/
theorem c10_result_error_exclusive (env : Env) (url p lp : String)
    (ob : Option String) :
    (((download_file env url p).1.1.isSome = true ∧
        (download_file env url p).1.2 = none) ∨
      ((download_file env url p).1.1 = none ∧
        (download_file env url p).1.2.isSome = true)) ∧
    (((upload_to_s3 env lp ob).1.1.isSome = true ∧
        (upload_to_s3 env lp ob).1.2 = none) ∨
      ((upload_to_s3 env lp ob).1.1 = none ∧
        (upload_to_s3 env lp ob).1.2.isSome = true)) :=
  ⟨download_file_parts env url p, upload_to_s3_parts env lp ob⟩

end LivePortraitHandler
